import Mathlib

/-!
Verification development for the Chatbot_FidOuest backend core:
the pricing calculator (backend/pricing.js), the chat orchestrator
(backend/services/ChatService.js together with backend/db.ts), and the two
provider adapters (backend/adapters/MistralAdapter.js and
backend/adapters/ChatGPTAdapter.js) with the document validator
(backend/services/DocumentExtractor.js).

JavaScript numbers are modelled as rationals, absent object fields as
Option, thrown errors as Except, and the remote provider endpoints as
explicit function parameters.  Bookkeeping side effects of the orchestrator
(adapter invocations, database increments) are returned as an explicit
trace so that call-count properties can be stated.
-/

/-! ## JavaScript value helpers -/

/-- The value of a possibly absent numeric field, as in the source idiom
Number(x ?? 0). -/
def jsNum (o : Option ℚ) : ℚ := o.getD 0

/-- JavaScript a || b on numbers: 0 is falsy and falls through to b. -/
def jsOrNum (a b : ℚ) : ℚ := if a = 0 then b else a

/-- JavaScript a ?? b on possibly absent fields: the first present value. -/
def coalesce (a b : Option ℚ) : Option ℚ :=
  match a with
  | some x => some x
  | none => b

/-- JavaScript truthiness of a possibly absent string field: a present,
non-empty string. -/
def jsTruthyStr (o : Option String) : Option String :=
  match o with
  | some s => if s = "" then none else some s
  | none => none

/-- JavaScript String.prototype.includes, via list infix containment. -/
def strIncludes (s pat : String) : Bool := decide (pat.toList <:+: s.toList)

/-- JavaScript String.prototype.toLowerCase, by character. -/
def jsToLower (s : String) : String := String.mk (s.data.map Char.toLower)

/-- JavaScript String.prototype.trim: whitespace stripped from both
ends. -/
def jsTrim (s : String) : String :=
  String.mk (((s.data.dropWhile Char.isWhitespace).reverse.dropWhile Char.isWhitespace).reverse)

/-- JavaScript String.prototype.startsWith. -/
def jsStartsWith (s pat : String) : Bool := pat.data.isPrefixOf s.data

/-- JavaScript String.prototype.endsWith. -/
def jsEndsWith (s pat : String) : Bool := pat.data.isSuffixOf s.data

/-- Number.isFinite: every rational models a finite JavaScript number, so
this is constantly true in the embedding. -/
def jsIsFinite (_ : ℚ) : Bool := true

/-- JavaScript Math.max on two numbers. -/
def mathMax (a b : ℚ) : ℚ := if a ≤ b then b else a

/-- JavaScript Math.min on two numbers. -/
def mathMin (a b : ℚ) : ℚ := if a ≤ b then a else b

/-! ## Pricing calculator (backend/pricing.js) -/

/-- Usage object as inspected by extractUsage: every numeric field the
source reads, each possibly absent.  The three cached fields model
input_tokens_details.cached_tokens, input_token_details.cached_tokens and
prompt_tokens_details.cached_tokens. -/
structure UsageObj where
  input_tokens : Option ℚ
  output_tokens : Option ℚ
  prompt_tokens : Option ℚ
  completion_tokens : Option ℚ
  total_tokens : Option ℚ
  input_tokens_details_cached : Option ℚ
  input_token_details_cached : Option ℚ
  prompt_tokens_details_cached : Option ℚ
deriving DecidableEq, Repr

/-- Result of extractUsage in backend/pricing.js. -/
structure ExtractedUsage where
  input : ℚ
  output : ℚ
  cached : ℚ
  nonCached : ℚ
deriving DecidableEq, Repr

/-- extractUsage from backend/pricing.js lines 424-453.  The Responses
naming (input_tokens / output_tokens) is combined with the Chat
Completions naming (prompt_tokens / completion_tokens) through the
JavaScript || operator, and the cached count is clamped to
[0, input]. -/
def extractUsage : Option UsageObj → ExtractedUsage
  | none => ⟨0, 0, 0, 0⟩
  | some u =>
    let inputR := jsNum u.input_tokens
    let outputR := jsNum u.output_tokens
    let cachedR := jsNum (coalesce u.input_tokens_details_cached u.input_token_details_cached)
    let inputC := jsNum u.prompt_tokens
    let outputC := jsNum u.completion_tokens
    let cachedC := jsNum (coalesce u.prompt_tokens_details_cached
      (coalesce u.input_tokens_details_cached u.input_token_details_cached))
    let input := jsOrNum inputR (jsOrNum inputC 0)
    let output := jsOrNum outputR (jsOrNum outputC 0)
    let cached := jsOrNum cachedR (jsOrNum cachedC 0)
    let cachedClamped := mathMax 0 (mathMin cached input)
    let nonCached := mathMax 0 (input - cachedClamped)
    ⟨input, output, cachedClamped, nonCached⟩

/-- One entry of DEFAULT_PRICING: rates in USD per million tokens; the
cached-input rate is only present for the OpenAI families. -/
structure PriceEntry where
  inRate : ℚ
  cacheRate : Option ℚ
  outRate : ℚ
deriving DecidableEq, Repr

/-- DEFAULT_PRICING from backend/pricing.js lines 383-408, with the
environment overrides absent so every rate takes its literal default. -/
def DEFAULT_PRICING (key : String) : Option PriceEntry :=
  if key = "gpt-5" then some ⟨125/100, some (125/1000), 10⟩
  else if key = "gpt-4o-mini" then some ⟨15/100, some (75/1000), 60/100⟩
  else if key = "mistral-small" then some ⟨10/100, none, 30/100⟩
  else if key = "mistral-medium" then some ⟨40/100, none, 2⟩
  else if key = "mistral-large" then some ⟨50/100, none, 150/100⟩
  else none

/-- USD_PER_MILLION from backend/pricing.js. -/
def USD_PER_MILLION (n : ℚ) : ℚ := n / 1000000

/-- resolveModelKey from backend/pricing.js lines 411-421. -/
def resolveModelKey (model : String) : Option String :=
  let m := jsTrim (jsToLower model)
  if jsStartsWith m "gpt-5" then some "gpt-5"
  else if jsStartsWith m "gpt-4o-mini" then some "gpt-4o-mini"
  else if strIncludes m "mistral-small" || strIncludes m "mistral-tiny" then some "mistral-small"
  else if strIncludes m "mistral-medium" then some "mistral-medium"
  else if strIncludes m "mistral-large" then some "mistral-large"
  else none

/-- Number(total.toFixed(6)): rounding to six decimal places. -/
def round6 (q : ℚ) : ℚ := (round (q * 1000000) : ℤ) / 1000000

/-- computeCostFromUsage from backend/pricing.js lines 462-485.  An
unrecognized model resolves to no key and costs 0; resolveModelKey only
ever returns keys of DEFAULT_PRICING, so the inner none branch is
unreachable. -/
def computeCostFromUsage (usage : Option UsageObj) (model : String) : ℚ :=
  match resolveModelKey model with
  | none => 0
  | some key =>
    match DEFAULT_PRICING key with
    | none => 0
    | some prices =>
      let e := extractUsage usage
      match prices.cacheRate with
      | some c =>
        round6 (USD_PER_MILLION prices.inRate * e.nonCached
          + USD_PER_MILLION c * e.cached
          + USD_PER_MILLION prices.outRate * e.output)
      | none =>
        round6 (USD_PER_MILLION prices.inRate * e.input
          + USD_PER_MILLION prices.outRate * e.output)

/-- Non-negativity of a possibly absent numeric field, the domain
constraint of the StandardizedUsage data model (all token counters are
non-negative). -/
def optNonneg (o : Option ℚ) : Prop :=
  match o with
  | some q => 0 ≤ q
  | none => True

instance (o : Option ℚ) : Decidable (optNonneg o) := by
  unfold optNonneg
  cases o
  case none => exact inferInstanceAs (Decidable True)
  case some q => exact inferInstanceAs (Decidable (0 ≤ q))

/-- A usage object all of whose present token counters are non-negative,
as the StandardizedUsage data model requires. -/
def UsageNonneg (u : UsageObj) : Prop :=
  optNonneg u.input_tokens ∧ optNonneg u.output_tokens ∧
  optNonneg u.prompt_tokens ∧ optNonneg u.completion_tokens ∧
  optNonneg u.total_tokens ∧ optNonneg u.input_tokens_details_cached ∧
  optNonneg u.input_token_details_cached ∧ optNonneg u.prompt_tokens_details_cached

instance (u : UsageObj) : Decidable (UsageNonneg u) := by
  unfold UsageNonneg
  infer_instance

/-- Usage objects of the data model: absent usage or a usage with
non-negative counters. -/
def UsageNonnegO (u : Option UsageObj) : Prop :=
  match u with
  | some x => UsageNonneg x
  | none => True

instance (u : Option UsageObj) : Decidable (UsageNonnegO u) := by
  unfold UsageNonnegO
  cases u
  case none => exact inferInstanceAs (Decidable True)
  case some x => exact inferInstanceAs (Decidable (UsageNonneg x))

/-! ## Persistence store (backend/db.ts) -/

/-- Per-user row of dbo.users as touched by the chat pipeline.  Counter
columns may be NULL in the store, hence the Option fields. -/
structure UserRecord where
  totalRequests : Option ℤ
  totalRequestsWithFiles : Option ℤ
  totalTokens : Option ℚ
  totalCost : Option ℚ
  maxCost : Option ℚ
deriving DecidableEq, Repr

/-- ensureUserExists from backend/db.ts: insert a fresh row (all counter
columns NULL) when the user has none. -/
def ensureUserExists : Option UserRecord → UserRecord
  | some u => u
  | none => ⟨none, none, none, none, none⟩

/-- addRequest from backend/db.ts: SET totalRequests =
ISNULL(totalRequests, 0) + 1. -/
def addRequest (u : UserRecord) : UserRecord :=
  { u with totalRequests := some (u.totalRequests.getD 0 + 1) }

/-- addRequestWithFiles from backend/db.ts: SET totalRequestsWithFiles =
ISNULL(totalRequestsWithFiles, 0) + 1. -/
def addRequestWithFiles (u : UserRecord) : UserRecord :=
  { u with totalRequestsWithFiles := some (u.totalRequestsWithFiles.getD 0 + 1) }

/-- getTotalCost from backend/db.ts: Number(row?.totalCost ?? 0). -/
def getTotalCost (u : UserRecord) : ℚ := u.totalCost.getD 0

/-- getCostLimit from backend/db.ts: Number(row?.maxCost ?? 2.0). -/
def getCostLimit (u : UserRecord) : ℚ := u.maxCost.getD 2

/-- addTokens from backend/db.ts: SET totalTokens = totalTokens + delta,
with no ISNULL guard, so a NULL column stays NULL. -/
def addTokens (u : UserRecord) (t : ℚ) : UserRecord :=
  { u with totalTokens := u.totalTokens.map (fun x => x + t) }

/-- addCost from backend/db.ts: SET totalCost = totalCost + delta, with no
ISNULL guard, so a NULL column stays NULL. -/
def addCost (u : UserRecord) (c : ℚ) : UserRecord :=
  { u with totalCost := u.totalCost.map (fun x => x + c) }

/-! ## Chat service request normalization (ChatService.js) -/

/-- StandardizedMessage from backend/adapters/BaseAdapter.js. -/
structure StdMsg where
  role : String
  content : String
deriving DecidableEq, Repr

/-- One element of a structured message content array, as inspected by
the normalizer: either a bare string or an object with optional text and
type fields. -/
inductive ContentFragment where
  | str (s : String)
  | obj (text : Option String) (ctype : Option String)
deriving DecidableEq, Repr

/-- Text extraction for one content fragment, from the map callback in
ChatService normalization: a string is kept, an object contributes its
truthy text field, and everything else becomes the empty string.  The
input_text branch of the source can only fire when the text field is
truthy, in which case the previous branch has already returned, so it is
dead and collapses to the empty string here. -/
def fragmentText : ContentFragment → String
  | .str s => s
  | .obj text _ =>
    match jsTruthyStr text with
    | some t => t
    | none => ""

/-- Raw message content from the frontend: a plain string, an array of
fragments, or some other shape. -/
inductive RawContent where
  | str (s : String)
  | arr (frags : List ContentFragment)
  | other
deriving DecidableEq, Repr

/-- Raw message from the frontend. -/
structure RawMessage where
  role : Option String
  content : RawContent
deriving DecidableEq, Repr

/-- Raw chat request body from the frontend. -/
structure RawRequest where
  prompt : Option String
  messages : Option (List RawMessage)
  file_ids : Option (List String)
deriving DecidableEq, Repr

/-- ProcessedChatRequest produced by ChatService normalization. -/
structure ProcessedChatRequest where
  messages : List StdMsg
  file_ids : List String
  model : String
deriving DecidableEq, Repr

/-- Flattening of structured message content: extractable text fragments
joined with newline separators, discarding non-text fragments. -/
def messageText : RawContent → String
  | .str s => s
  | .arr frags => String.intercalate "\n" ((frags.map fragmentText).filter (fun t => t ≠ ""))
  | .other => ""

/-- m.role || the user default. -/
def normalizeRole (r : Option String) : String :=
  match jsTruthyStr r with
  | some s => s
  | none => "user"

/-- file_ids normalization: Array.isArray(file_ids) yields the list,
anything else the empty list. -/
def normalizeFileIds (raw : RawRequest) : List String :=
  match raw.file_ids with
  | some l => l
  | none => []

/-- The with-files test of processChatRequest:
Array.isArray(file_ids) && file_ids.length > 0. -/
def hasFiles (raw : RawRequest) : Bool :=
  match raw.file_ids with
  | some l => decide (l.length > 0)
  | none => false

/-- The normalizeRequest step of ChatService (method at lines 492-539 of
the service): a non-empty messages array wins, otherwise a truthy string
prompt becomes a single user message, otherwise the MissingInput error is
thrown. -/
def normalizeRequest (raw : RawRequest) (model : String) : Except String ProcessedChatRequest :=
  match raw.messages with
  | some ms =>
    if ms.length > 0 then
      .ok ⟨ms.map (fun m => ⟨normalizeRole m.role, messageText m.content⟩),
        normalizeFileIds raw, model⟩
    else
      normalizePromptFallback raw model
  | none => normalizePromptFallback raw model
where
  normalizePromptFallback (raw : RawRequest) (model : String) :
      Except String ProcessedChatRequest :=
    match jsTruthyStr raw.prompt with
    | some p => .ok ⟨[⟨"user", p⟩], normalizeFileIds raw, model⟩
    | none => .error "Ni prompt ni messages n\x27ont été fournis"

/-! ## Chat service orchestration (ChatService.processChatRequest) -/

/-- StandardizedResponse returned by an adapter. -/
structure StandardizedResponse where
  content : String
  usage : Option UsageObj
  tokensUsed : ℚ
deriving DecidableEq, Repr

/-- ServiceChatResponse returned by processChatRequest. -/
structure ServiceChatResponse where
  content : String
  usage : Option UsageObj
  cost : ℚ
  limitReached : Bool
deriving DecidableEq, Repr

/-- Observable side effects of one processChatRequest run: the adapter
invocations and the database bookkeeping calls, in the order the source
issues them. -/
structure BookkeepingTrace where
  adapterCalls : List ProcessedChatRequest
  addTokensCalls : List ℚ
  addCostCalls : List ℚ
  addRequestCalls : ℕ
  addRequestWithFilesCalls : ℕ
deriving DecidableEq, Repr

/-- processChatRequest from ChatService (lines 423-481 of the service
file).  The adapter is passed as a function from processed request to
result; the returned triple is the thrown-or-returned outcome, the trace
of side-effecting calls, and the final user record.  Number.isFinite holds
for every rational, so the service-wide default limit fallback and the
cost-finiteness guard always take their finite branch here. -/
def processChatRequest
    (adapter : ProcessedChatRequest → Except String StandardizedResponse)
    (serviceCostLimit : ℚ) (store : Option UserRecord)
    (raw : RawRequest) (model : String) :
    Except String ServiceChatResponse × BookkeepingTrace × UserRecord :=
  let u0 := ensureUserExists store
  let u1 := addRequest u0
  let u2 := if hasFiles raw then addRequestWithFiles u1 else u1
  let baseTrace : BookkeepingTrace :=
    ⟨[], [], [], 1, if hasFiles raw then 1 else 0⟩
  let totalCost := getTotalCost u2
  let userCostLimit := getCostLimit u2
  let effectiveLimit := if jsIsFinite userCostLimit then userCostLimit else serviceCostLimit
  if effectiveLimit ≤ totalCost then
    (.ok ⟨"", none, 0, true⟩, baseTrace, u2)
  else
    match normalizeRequest raw model with
    | .error e => (.error e, baseTrace, u2)
    | .ok processed =>
      match adapter processed with
      | .error e => (.error e, { baseTrace with adapterCalls := [processed] }, u2)
      | .ok resp =>
        let cost := computeCostFromUsage resp.usage model
        let u3 := if resp.tokensUsed = 0 then u2 else addTokens u2 resp.tokensUsed
        let u4 := addCost u3 cost
        (.ok ⟨resp.content, resp.usage, cost, false⟩,
          { adapterCalls := [processed],
            addTokensCalls := if resp.tokensUsed = 0 then [] else [resp.tokensUsed],
            addCostCalls := [cost],
            addRequestCalls := 1,
            addRequestWithFilesCalls := if hasFiles raw then 1 else 0 }, u4)

/-! ## Document validation (backend/services/DocumentExtractor.js) -/

/-- isSupportedFormat from DocumentExtractor: extension allow-list for the
Mistral OCR upload path, with the mimetype escape hatches. -/
def isSupportedFormat (originalname : String) (mimetype : String) : Bool :=
  let filename := jsToLower originalname
  jsEndsWith filename ".pdf" || jsEndsWith filename ".docx" ||
  jsEndsWith filename ".png" || jsEndsWith filename ".jpg" ||
  jsEndsWith filename ".jpeg" || jsEndsWith filename ".webp" ||
  strIncludes mimetype "pdf" || strIncludes mimetype "wordprocessingml" ||
  strIncludes mimetype "vnd.openxmlformats" || jsStartsWith mimetype "image/"

/-- validateFile from DocumentExtractor: an absent or zero-length buffer
is rejected first, then the format allow-list is applied with an empty
mimetype. -/
def validateFile (bufferLen : ℕ) (originalname : String) : Except String Unit :=
  if bufferLen = 0 then .error "Fichier vide"
  else if !(isSupportedFormat originalname "") then
    .error ("Format non supporté: " ++ originalname ++
      ". Formats acceptés: PDF, DOCX, PNG, JPG, JPEG, WEBP")
  else .ok ()

/-! ## File upload (MistralAdapter.uploadFiles and ChatGPTAdapter.uploadFiles) -/

/-- One incoming multipart file: its name, reported size and buffer
length. -/
structure FileIn where
  originalname : String
  size : ℕ
  bufferLen : ℕ
deriving DecidableEq, Repr

/-- One entry of the uploadFiles result. -/
structure UploadResult where
  name : String
  size : ℕ
  file_id : String
deriving DecidableEq, Repr

/-- The body of one iteration of the MistralAdapter.uploadFiles try block:
validate the file, then upload it remotely, the first failure winning. -/
def mistralUploadStep (remote : FileIn → Except String String)
    (f : FileIn) : Except String String :=
  match validateFile f.bufferLen f.originalname with
  | .error e => .error e
  | .ok _ => remote f

/-- The per-file loop of MistralAdapter.uploadFiles: validate then upload,
wrapping any failure of the try block into the Erreur upload message of
the catch block, and aborting the batch there. -/
def mistralUploadLoop (remote : FileIn → Except String String) :
    List FileIn → Except String (List UploadResult)
  | [] => .ok []
  | f :: rest =>
    match mistralUploadStep remote f with
    | .error e => .error ("Erreur upload " ++ f.originalname ++ ": " ++ e)
    | .ok fid =>
      match mistralUploadLoop remote rest with
      | .error e => .error e
      | .ok rs => .ok (⟨f.originalname, f.size, fid⟩ :: rs)

/-- MistralAdapter.uploadFiles (lines 45-89): reject an empty batch, then
validate the first file outside the loop (whose failure is thrown
unwrapped), then run the per-file loop.  The remote parameter models
client.files.upload returning the new file id. -/
def mistralUploadFiles (files : List FileIn)
    (remote : FileIn → Except String String) : Except String (List UploadResult) :=
  match files with
  | [] => .error "Aucun fichier fourni"
  | f0 :: _ =>
    match validateFile f0.bufferLen f0.originalname with
    | .error e => .error e
    | .ok _ => mistralUploadLoop remote files

/-- The per-file loop of ChatGPTAdapter.uploadFiles: no local validation
at all, a remote failure propagates unchanged and aborts the batch. -/
def chatgptUploadLoop (remote : FileIn → Except String String) :
    List FileIn → Except String (List UploadResult)
  | [] => .ok []
  | f :: rest =>
    match remote f with
    | .error e => .error e
    | .ok fid =>
      match chatgptUploadLoop remote rest with
      | .error e => .error e
      | .ok rs => .ok (⟨f.originalname, f.size, fid⟩ :: rs)

/-- ChatGPTAdapter.uploadFiles (lines 45-70): only the empty-batch check,
then the unvalidated per-file loop. -/
def chatgptUploadFiles (files : List FileIn)
    (remote : FileIn → Except String String) : Except String (List UploadResult) :=
  match files with
  | [] => .error "Aucun fichier à uploader"
  | _ :: _ => chatgptUploadLoop remote files

/-! ## File deletion (deleteFile of both adapters) -/

/-- MistralAdapter.deleteFile (lines 334-346): the remote deletion outcome
is caught and swallowed, only logged, so the caller always gets a
successful unit result. -/
def mistralDeleteFile (remote : Except String Unit) : Except String Unit :=
  match remote with
  | .ok _ => .ok ()
  | .error _ => .ok ()

/-- ChatGPTAdapter.deleteFile as it is effective at runtime: the class
body defines deleteFile twice and in JavaScript the later definition wins,
so the error-swallowing variant at lines 78-85 is shadowed by the
unconditional throw at lines 358-360. -/
def chatgptDeleteFile (_fileId : String) : Except String Unit :=
  .error "ChatGPTAdapter: La suppression de fichiers n\x27est pas supportée par OpenAI"

/-! ## OCR text extraction (MistralAdapter.extractTextFromFile) -/

/-- One element of an OCR contents array: a bare string, or an object with
optional text and content fields plus its JSON serialization for the
stringify fallback. -/
inductive OcrBlock where
  | str (s : String)
  | obj (text : Option String) (content : Option String) (stringified : String)
deriving DecidableEq, Repr

/-- Text recovered from one contents block, following the map callback of
Format 1: a string is kept, then a truthy text field, then a truthy
content field, then the JSON serialization of the block. -/
def ocrBlockText : OcrBlock → String
  | .str s => s
  | .obj text content stringified =>
    match jsTruthyStr text with
    | some t => t
    | none =>
      match jsTruthyStr content with
      | some c => c
      | none => stringified

/-- One element of an OCR pages array: a bare string, or an object with
optional content and text fields plus its JSON serialization. -/
inductive OcrPage where
  | str (s : String)
  | obj (content : Option String) (text : Option String) (stringified : String)
deriving DecidableEq, Repr

/-- Text recovered from one page at index i, following the map callback of
Format 3: a string is kept, then a truthy content field, then a truthy
text field, then a bracketed page marker with the JSON serialization. -/
def ocrPageText (i : ℕ) : OcrPage → String
  | .str s => s
  | .obj content text stringified =>
    match jsTruthyStr content with
    | some c => c
    | none =>
      match jsTruthyStr text with
      | some t => t
      | none => "[Page " ++ toString (i + 1) ++ "] " ++ stringified

/-- The contents field of an OCR response: an array of blocks or a
string. -/
inductive OcrContents where
  | arr (blocks : List OcrBlock)
  | str (s : String)
deriving DecidableEq, Repr

/-- The OCR response value as inspected by extractTextFromFile: a falsy
value, a raw string, or an object carrying the optional contents and pages
fields together with its JSON serialization for Format 5. -/
inductive OcrResponse where
  | nullish
  | rawString (s : String)
  | obj (contents : Option OcrContents) (pages : Option (List OcrPage)) (stringified : String)
deriving DecidableEq, Repr

/-- The pages-or-stringify tail of the extraction chain: Format 3 when a
pages array is present, otherwise Format 5, the JSON serialization of the
whole response. -/
def ocrPagesOrFallback (pages : Option (List OcrPage)) (stringified : String) : String :=
  match pages with
  | some ps => String.intercalate "\n\n" (ps.enum.map (fun ip => ocrPageText ip.1 ip.2))
  | none => stringified

/-- The extractedText computation of MistralAdapter.extractTextFromFile
(lines 119-152): Format 1 when contents is an array, Format 2 when
contents is a truthy string (an empty contents string is falsy and falls
through to the pages check), Format 3 on a pages array, Format 4 when the
response itself is a string, else Format 5.  Recovered pieces of Formats 1
and 3 are joined with double newlines. -/
def ocrRecoveredText : OcrResponse → String
  | .nullish => ""
  | .rawString s => s
  | .obj contents pages stringified =>
    match contents with
    | some (.arr blocks) =>
      String.intercalate "\n\n" ((blocks.map ocrBlockText).filter (fun t => t ≠ ""))
    | some (.str s) =>
      if s = "" then ocrPagesOrFallback pages stringified else s
    | none => ocrPagesOrFallback pages stringified

/-- The initial falsiness guard of extractTextFromFile: !response. -/
def ocrIsFalsy : OcrResponse → Bool
  | .nullish => true
  | .rawString s => decide (s = "")
  | .obj _ _ _ => false

/-- MistralAdapter.extractTextFromFile (lines 98-166) given the remote OCR
response: a falsy response raises the empty-response error, a recovered
empty text raises the extraction-failure error, and both are rewrapped by
the surrounding catch into the Erreur OCR message the caller observes. -/
def mistralExtractTextFromFile (response : OcrResponse) : Except String String :=
  if ocrIsFalsy response then
    .error ("Erreur OCR: " ++ "Réponse OCR vide")
  else
    let extractedText := ocrRecoveredText response
    if extractedText = "" then
      .error ("Erreur OCR: " ++
        "Le fichier n\x27a pu être traité par OCR - peut-être un format non supporté ou un fichier corrompu")
    else
      .ok extractedText

/-- ChatGPTAdapter.extractTextFromFile (lines 94-96): unconditionally
unsupported. -/
def chatgptExtractTextFromFile (_fileId : String) : Except String String :=
  .error "OpenAI n\x27expose pas d\x27endpoint d\x27extraction de texte pour les fichiers"

/-- Text the specification recognizes as recoverable from an OCR response:
the three documented shapes (array of content blocks, single string blob,
pages array) plus a raw string response, and nothing else.  This
definition follows the words of the specification, for comparison with the
source translation above. -/
def specRecognizedText : OcrResponse → Option String
  | .nullish => none
  | .rawString s => some s
  | .obj (some (.arr blocks)) _ _ =>
    some (String.intercalate "\n\n" ((blocks.map ocrBlockText).filter (fun t => t ≠ "")))
  | .obj (some (.str s)) _ _ => some s
  | .obj none (some ps) _ =>
    some (String.intercalate "\n\n" (ps.enum.map (fun ip => ocrPageText ip.1 ip.2)))
  | .obj none none _ => none

/-! ## Chat dispatch with attached files (MistralAdapter.sendChatRequest) -/

/-- JavaScript String.prototype.slice(0, n), by character count. -/
def sliceChars (t : String) (n : ℕ) : String := String.mk (t.data.take n)

/-- The per-file truncation of MistralAdapter.sendChatRequest line 251:
text longer than 5000 characters is cut to its first 5000 characters and
suffixed with the truncation marker. -/
def truncateExtractedText (t : String) : String :=
  if t.length > 5000 then sliceChars t 5000 ++ "\n[... contenu tronqué ...]"
  else t

/-- The context block contributed by one attached file: the extracted and
truncated text on success, the extraction-error marker on failure. -/
def fileContextEntry (extractOutcome : String → Except String String)
    (fileId : String) : String :=
  match extractOutcome fileId with
  | .ok t => "\n[Fichier: " ++ fileId ++ "]\n" ++ truncateExtractedText t ++ "\n"
  | .error _ => "\n[Fichier: " ++ fileId ++ "] - Erreur d\x27extraction\n"

/-- The documentContext accumulator of MistralAdapter.sendChatRequest
lines 243-270: the header followed by one entry per attached file. -/
def documentContext (extractOutcome : String → Except String String)
    (file_ids : List String) : String :=
  "\n\n--- DOCUMENTS ATTACHÉS ---\n" ++
    String.join (file_ids.map (fileContextEntry extractOutcome))

/-- The message-splicing step of MistralAdapter.sendChatRequest lines
240-280: when files are attached, the document context is appended to the
last message provided that message has the user role; the per-file
deletion attempted after extraction is advisory and does not touch the
messages. -/
def mistralSpliceFiles (messages : List StdMsg) (file_ids : List String)
    (extractOutcome : String → Except String String) : List StdMsg :=
  if file_ids.length > 0 then
    match messages.getLast? with
    | some last =>
      if last.role = "user" then
        messages.dropLast ++
          [⟨last.role, last.content ++ documentContext extractOutcome file_ids⟩]
      else messages
    | none => messages
  else messages

/-! ## Helper lemmas -/

lemma jsNum_nonneg (o : Option ℚ) (h : optNonneg o) : 0 ≤ jsNum o := by
  unfold optNonneg at h
  unfold jsNum
  cases o with
  | none => simp
  | some q => simpa using h

lemma coalesce_nonneg (a b : Option ℚ) (ha : optNonneg a) (hb : optNonneg b) :
    optNonneg (coalesce a b) := by
  unfold coalesce
  cases a with
  | none => exact hb
  | some q => exact ha

lemma jsOrNum_nonneg {a b : ℚ} (ha : 0 ≤ a) (hb : 0 ≤ b) : 0 ≤ jsOrNum a b := by
  unfold jsOrNum
  split
  case isTrue => exact hb
  case isFalse => exact ha

lemma le_mathMax_left (a b : ℚ) : a ≤ mathMax a b := by
  unfold mathMax
  split
  case isTrue h => exact h
  case isFalse => exact le_refl a

lemma mathMax_le {a b c : ℚ} (h1 : a ≤ c) (h2 : b ≤ c) : mathMax a b ≤ c := by
  unfold mathMax
  split
  case isTrue => exact h2
  case isFalse => exact h1

lemma mathMin_le_right (a b : ℚ) : mathMin a b ≤ b := by
  unfold mathMin
  split
  case isTrue h => exact h
  case isFalse => exact le_refl b

lemma mathMax_eq_right {a b : ℚ} (h : a ≤ b) : mathMax a b = b := by
  unfold mathMax
  split
  case isTrue => rfl
  case isFalse hc => exact absurd h hc

lemma extractUsage_nonneg (u : Option UsageObj) (h : UsageNonnegO u) :
    0 ≤ (extractUsage u).input ∧ 0 ≤ (extractUsage u).output ∧
    0 ≤ (extractUsage u).cached ∧ 0 ≤ (extractUsage u).nonCached := by
  cases u with
  | none => refine ⟨le_refl 0, le_refl 0, le_refl 0, le_refl 0⟩
  | some x =>
    obtain ⟨h1, h2, h3, h4, _h5, h6, h7, h8⟩ := h
    have hI : 0 ≤ jsOrNum (jsNum x.input_tokens) (jsOrNum (jsNum x.prompt_tokens) 0) :=
      jsOrNum_nonneg (jsNum_nonneg _ h1) (jsOrNum_nonneg (jsNum_nonneg _ h3) (le_refl 0))
    have hO : 0 ≤ jsOrNum (jsNum x.output_tokens) (jsOrNum (jsNum x.completion_tokens) 0) :=
      jsOrNum_nonneg (jsNum_nonneg _ h2) (jsOrNum_nonneg (jsNum_nonneg _ h4) (le_refl 0))
    refine ⟨hI, hO, le_mathMax_left 0 _, le_mathMax_left 0 _⟩

lemma round6_nonneg {q : ℚ} (h : 0 ≤ q) : 0 ≤ round6 q := by
  unfold round6
  apply div_nonneg _ (by norm_num)
  have hz : (0 : ℤ) ≤ round (q * 1000000) := by
    rw [round_eq]
    apply Int.le_floor.mpr
    push_cast
    linarith
  exact_mod_cast hz

lemma DEFAULT_PRICING_nonneg (key : String) (p : PriceEntry)
    (h : DEFAULT_PRICING key = some p) :
    0 ≤ p.inRate ∧ 0 ≤ p.outRate ∧ ∀ c, p.cacheRate = some c → 0 ≤ c := by
  unfold DEFAULT_PRICING at h
  split_ifs at h <;> simp only [Option.some.injEq] at h <;> subst h <;>
    refine ⟨by norm_num, by norm_num, ?_⟩ <;> intro c hc <;>
    simp only [Option.some.injEq] at hc <;> first
    | (subst hc; norm_num)
    | exact absurd hc (by simp)

/-- C2: for every usage object of the data model (all present token
counters non-negative) and every model string, computeCostFromUsage
returns a non-negative number, is deterministic, and returns exactly 0
when the model string matches none of the known model-name patterns. -/
theorem computeCost_nonneg_deterministic_unknownZero :
    (∀ (usage : Option UsageObj) (model : String), UsageNonnegO usage →
      0 ≤ computeCostFromUsage usage model) ∧
    (∀ (u1 u2 : Option UsageObj) (m1 m2 : String), u1 = u2 → m1 = m2 →
      computeCostFromUsage u1 m1 = computeCostFromUsage u2 m2) ∧
    (∀ (usage : Option UsageObj) (model : String), resolveModelKey model = none →
      computeCostFromUsage usage model = 0) := by
  refine ⟨?_, ?_, ?_⟩
  · intro usage model h
    obtain ⟨hI, hO, hC, hN⟩ := extractUsage_nonneg usage h
    unfold computeCostFromUsage
    cases hk : resolveModelKey model with
    | none => exact le_refl (0 : ℚ)
    | some key =>
      dsimp only
      cases hp : DEFAULT_PRICING key with
      | none => exact le_refl (0 : ℚ)
      | some prices =>
        dsimp only
        obtain ⟨hin, hout, hcache⟩ := DEFAULT_PRICING_nonneg key prices hp
        have hmil : ∀ r : ℚ, 0 ≤ r → 0 ≤ USD_PER_MILLION r := by
          intro r hr
          unfold USD_PER_MILLION
          exact div_nonneg hr (by norm_num)
        cases hc : prices.cacheRate with
        | none =>
          dsimp only
          exact round6_nonneg (add_nonneg (mul_nonneg (hmil _ hin) hI)
            (mul_nonneg (hmil _ hout) hO))
        | some c =>
          dsimp only
          exact round6_nonneg (add_nonneg (add_nonneg
            (mul_nonneg (hmil _ hin) hN)
            (mul_nonneg (hmil _ (hcache c hc)) hC))
            (mul_nonneg (hmil _ hout) hO))
  · intro u1 u2 m1 m2 hu hm
    rw [hu, hm]
  · intro usage model hk
    unfold computeCostFromUsage
    rw [hk]

/-- C2 witness: the three conjuncts instantiated at a concrete
non-negative usage object, at the model gpt-5 and at a model string no
pattern matches. -/
theorem computeCost_nonneg_deterministic_unknownZero_witness :
    (UsageNonnegO (some ⟨some 100, some 50, none, none, none, some 30, none, none⟩) ∧
      0 ≤ computeCostFromUsage
        (some ⟨some 100, some 50, none, none, none, some 30, none, none⟩) "gpt-5") ∧
    (resolveModelKey "llama-3-70b" = none ∧
      computeCostFromUsage
        (some ⟨some 100, some 50, none, none, none, some 30, none, none⟩) "llama-3-70b" = 0) :=
  ⟨⟨by decide, computeCost_nonneg_deterministic_unknownZero.1 _ _ (by decide)⟩,
   ⟨by decide, computeCost_nonneg_deterministic_unknownZero.2.2 _ _ (by decide)⟩⟩

/-- C3 counterexample: a usage object carrying both naming shapes, with a
present zero input_tokens field and prompt_tokens 7.  Presence-based
priority of the input/output naming would extract input 0, but the
JavaScript || chain treats the present 0 as falsy and extractUsage returns
7, the prompt/completion value. -/
theorem extractUsage_priority_counterexample :
    (UsageObj.input_tokens
        ⟨some 0, some 0, some 7, some 3, none, none, none, none⟩ = some 0) ∧
    (UsageObj.prompt_tokens
        ⟨some 0, some 0, some 7, some 3, none, none, none, none⟩ = some 7) ∧
    (extractUsage (some ⟨some 0, some 0, some 7, some 3, none, none, none, none⟩)).input = 7 ∧
    (extractUsage (some ⟨some 0, some 0, some 7, some 3, none, none, none, none⟩)).input ≠
      jsNum (UsageObj.input_tokens ⟨some 0, some 0, some 7, some 3, none, none, none, none⟩) := by
  refine ⟨rfl, rfl, by decide, by decide⟩

/-- C3 amended: the input/output-token naming takes priority exactly when
its value is non-zero; a zero or absent input_tokens (respectively
output_tokens) field falls back to the prompt_tokens (respectively
completion_tokens) field, because the source combines the two shapes with
the JavaScript || operator. -/
theorem extractUsage_priority (u : UsageObj) :
    (jsNum u.input_tokens ≠ 0 →
      (extractUsage (some u)).input = jsNum u.input_tokens) ∧
    (jsNum u.input_tokens = 0 →
      (extractUsage (some u)).input = jsOrNum (jsNum u.prompt_tokens) 0) ∧
    (jsNum u.output_tokens ≠ 0 →
      (extractUsage (some u)).output = jsNum u.output_tokens) ∧
    (jsNum u.output_tokens = 0 →
      (extractUsage (some u)).output = jsOrNum (jsNum u.completion_tokens) 0) := by
  refine ⟨?_, ?_, ?_, ?_⟩ <;> intro h
  · show jsOrNum (jsNum u.input_tokens) (jsOrNum (jsNum u.prompt_tokens) 0)
      = jsNum u.input_tokens
    unfold jsOrNum
    simp [h]
  · show jsOrNum (jsNum u.input_tokens) (jsOrNum (jsNum u.prompt_tokens) 0)
      = jsOrNum (jsNum u.prompt_tokens) 0
    unfold jsOrNum
    simp [h]
  · show jsOrNum (jsNum u.output_tokens) (jsOrNum (jsNum u.completion_tokens) 0)
      = jsNum u.output_tokens
    unfold jsOrNum
    simp [h]
  · show jsOrNum (jsNum u.output_tokens) (jsOrNum (jsNum u.completion_tokens) 0)
      = jsOrNum (jsNum u.completion_tokens) 0
    unfold jsOrNum
    simp [h]

/-- C3 amended witness: both shapes present with non-zero Responses
values, so the input/output naming wins; and the zero case from the
counterexample falls back to the prompt value. -/
theorem extractUsage_priority_witness :
    (jsNum (UsageObj.input_tokens
        ⟨some 11, some 4, some 7, some 3, none, none, none, none⟩) ≠ 0 ∧
      (extractUsage (some ⟨some 11, some 4, some 7, some 3, none, none, none, none⟩)).input
        = jsNum (UsageObj.input_tokens
            ⟨some 11, some 4, some 7, some 3, none, none, none, none⟩)) ∧
    (jsNum (UsageObj.input_tokens
        ⟨some 0, some 0, some 7, some 3, none, none, none, none⟩) = 0 ∧
      (extractUsage (some ⟨some 0, some 0, some 7, some 3, none, none, none, none⟩)).input
        = jsOrNum (jsNum (UsageObj.prompt_tokens
            ⟨some 0, some 0, some 7, some 3, none, none, none, none⟩)) 0) :=
  ⟨⟨by decide, (extractUsage_priority _).1 (by decide)⟩,
   ⟨by decide, (extractUsage_priority _).2.1 (by decide)⟩⟩

/-- C4: for every usage object whose input-side token counters are
non-negative (the data model domain), the effective cached count is
clamped to the interval between 0 and the extracted input count, and the
non-cached count equals input minus the clamped cached count and is never
negative. -/
theorem extractUsage_cached_clamped (u : UsageObj)
    (h1 : optNonneg u.input_tokens) (h2 : optNonneg u.prompt_tokens) :
    0 ≤ (extractUsage (some u)).cached ∧
    (extractUsage (some u)).cached ≤ (extractUsage (some u)).input ∧
    (extractUsage (some u)).nonCached
      = (extractUsage (some u)).input - (extractUsage (some u)).cached ∧
    0 ≤ (extractUsage (some u)).nonCached := by
  have hin : 0 ≤ (extractUsage (some u)).input :=
    jsOrNum_nonneg (jsNum_nonneg _ h1) (jsOrNum_nonneg (jsNum_nonneg _ h2) (le_refl 0))
  have hcle : (extractUsage (some u)).cached ≤ (extractUsage (some u)).input :=
    mathMax_le hin (mathMin_le_right _ _)
  have hnc : (extractUsage (some u)).nonCached
      = mathMax 0 ((extractUsage (some u)).input - (extractUsage (some u)).cached) := rfl
  refine ⟨le_mathMax_left 0 _, hcle, ?_, ?_⟩
  · rw [hnc]
    exact mathMax_eq_right (sub_nonneg.mpr hcle)
  · exact le_mathMax_left 0 _

/-- C4 witness: input_tokens 100 with a reported cached count of 500; the
clamp brings the effective cached count down to 100 and the non-cached
count to 0. -/
theorem extractUsage_cached_clamped_witness :
    (optNonneg (UsageObj.input_tokens
        ⟨some 100, none, none, none, none, some 500, none, none⟩) ∧
      optNonneg (UsageObj.prompt_tokens
        ⟨some 100, none, none, none, none, some 500, none, none⟩)) ∧
    (jsNum (UsageObj.input_tokens_details_cached
        ⟨some 100, none, none, none, none, some 500, none, none⟩) = 500 ∧
      (extractUsage (some ⟨some 100, none, none, none, none, some 500, none, none⟩)).input
        = 100 ∧
      (extractUsage (some ⟨some 100, none, none, none, none, some 500, none, none⟩)).cached
        = 100 ∧
      (extractUsage (some ⟨some 100, none, none, none, none, some 500, none, none⟩)).nonCached
        = 0) ∧
    (0 ≤ (extractUsage (some ⟨some 100, none, none, none, none, some 500, none, none⟩)).cached ∧
      (extractUsage (some ⟨some 100, none, none, none, none, some 500, none, none⟩)).cached
        ≤ (extractUsage (some ⟨some 100, none, none, none, none, some 500, none, none⟩)).input ∧
      (extractUsage (some ⟨some 100, none, none, none, none, some 500, none, none⟩)).nonCached
        = (extractUsage (some ⟨some 100, none, none, none, none, some 500, none, none⟩)).input
          - (extractUsage (some ⟨some 100, none, none, none, none, some 500, none, none⟩)).cached ∧
      0 ≤ (extractUsage (some ⟨some 100, none, none, none, none, some 500, none, none⟩)).nonCached) :=
  ⟨⟨by decide, by decide⟩,
    ⟨by norm_num [jsNum],
      by norm_num [extractUsage, jsNum, jsOrNum, coalesce, mathMax, mathMin],
      by norm_num [extractUsage, jsNum, jsOrNum, coalesce, mathMax, mathMin],
      by norm_num [extractUsage, jsNum, jsOrNum, coalesce, mathMax, mathMin]⟩,
    extractUsage_cached_clamped _ (by decide) (by decide)⟩

/-- C5 counterexample: the effective deleteFile of the ChatGPT DirectChat
variant raises unconditionally, because the later duplicate method
definition (which throws an unsupported-operation error) shadows the
earlier error-swallowing one, so deletion failures are not swallowed for
this variant. -/
theorem chatgptDeleteFile_raises :
    chatgptDeleteFile "file-abc123"
      = .error "ChatGPTAdapter: La suppression de fichiers n\x27est pas supportée par OpenAI" :=
  rfl

/-- C5 amended: the Mistral OCR-upload variant swallows every remote
deletion outcome and always returns success to its caller, while the
ChatGPT DirectChat variant raises the unsupported-operation error on every
file id. -/
theorem deleteFile_behaviour :
    (∀ remote : Except String Unit, mistralDeleteFile remote = .ok ()) ∧
    (∀ fileId : String, chatgptDeleteFile fileId
      = .error "ChatGPTAdapter: La suppression de fichiers n\x27est pas supportée par OpenAI") := by
  constructor
  · intro remote
    cases remote with
    | ok _ => rfl
    | error _ => rfl
  · intro fileId
    rfl

/-- C6 counterexample: an OCR response of unrecognized shape (no contents,
no pages, not a string) recovers no text from any recognized shape, yet
extractTextFromFile succeeds with the JSON serialization of the whole
response instead of failing with the extraction error. -/
theorem ocrExtraction_counterexample :
    specRecognizedText (.obj none none "stringified-unknown-shape") = none ∧
    mistralExtractTextFromFile (.obj none none "stringified-unknown-shape")
      = .ok "stringified-unknown-shape" :=
  ⟨rfl, rfl⟩

/-- C6 amended: the OCR-upload variant tries the shapes in the fixed order
contents-array, contents-string, pages-array, raw-string, but when no
shape matches it falls back to the JSON serialization of the response
rather than failing; the extraction error is raised exactly when the
response is falsy or the recovered text is empty, pieces of the array
shapes are joined with double newlines, and the DirectChat variant reports
the unsupported error unconditionally. -/
theorem ocrExtraction_shape_order :
    (∀ (blocks : List OcrBlock) (pages : Option (List OcrPage)) (j : String),
      mistralExtractTextFromFile (.obj (some (.arr blocks)) pages j)
        = (if String.intercalate "\n\n" ((blocks.map ocrBlockText).filter (fun s => s ≠ "")) = ""
          then .error ("Erreur OCR: " ++
            "Le fichier n\x27a pu être traité par OCR - peut-être un format non supporté ou un fichier corrompu")
          else .ok (String.intercalate "\n\n" ((blocks.map ocrBlockText).filter (fun s => s ≠ ""))))) ∧
    (∀ (s : String) (pages : Option (List OcrPage)) (j : String), s ≠ "" →
      mistralExtractTextFromFile (.obj (some (.str s)) pages j) = .ok s) ∧
    (∀ (pages : Option (List OcrPage)) (j : String),
      mistralExtractTextFromFile (.obj (some (.str "")) pages j)
        = mistralExtractTextFromFile (.obj none pages j)) ∧
    (∀ (ps : List OcrPage) (j : String),
      mistralExtractTextFromFile (.obj none (some ps) j)
        = (if String.intercalate "\n\n" (ps.enum.map (fun ip => ocrPageText ip.1 ip.2)) = ""
          then .error ("Erreur OCR: " ++
            "Le fichier n\x27a pu être traité par OCR - peut-être un format non supporté ou un fichier corrompu")
          else .ok (String.intercalate "\n\n" (ps.enum.map (fun ip => ocrPageText ip.1 ip.2))))) ∧
    (∀ j : String, j ≠ "" →
      mistralExtractTextFromFile (.obj none none j) = .ok j) ∧
    (∀ s : String, s ≠ "" → mistralExtractTextFromFile (.rawString s) = .ok s) ∧
    (∀ r : OcrResponse,
      (∃ e, mistralExtractTextFromFile r = .error e)
        ↔ (ocrIsFalsy r = true ∨ ocrRecoveredText r = "")) ∧
    (∀ fileId : String, chatgptExtractTextFromFile fileId
      = .error "OpenAI n\x27expose pas d\x27endpoint d\x27extraction de texte pour les fichiers") := by
  refine ⟨?_, ?_, ?_, ?_, ?_, ?_, ?_, ?_⟩
  · intro blocks pages j
    rfl
  · intro s pages j hs
    simp [mistralExtractTextFromFile, ocrIsFalsy, ocrRecoveredText, hs]
  · intro pages j
    rfl
  · intro ps j
    rfl
  · intro j hj
    simp [mistralExtractTextFromFile, ocrIsFalsy, ocrRecoveredText, ocrPagesOrFallback, hj]
  · intro s hs
    simp [mistralExtractTextFromFile, ocrIsFalsy, ocrRecoveredText, hs]
  · intro r
    cases r with
    | nullish =>
      simp [mistralExtractTextFromFile, ocrIsFalsy]
    | rawString s =>
      by_cases hs : s = ""
      · subst hs
        simp [mistralExtractTextFromFile, ocrIsFalsy]
      · simp [mistralExtractTextFromFile, ocrIsFalsy, ocrRecoveredText, hs]
    | obj contents pages j =>
      by_cases ht : ocrRecoveredText (.obj contents pages j) = ""
      · simp [mistralExtractTextFromFile, ocrIsFalsy, ht]
      · simp [mistralExtractTextFromFile, ocrIsFalsy, ht]
  · intro fileId
    rfl

/-- C6 amended witness: a non-empty contents string wins over a present
pages array, and a non-empty stringify fallback, instantiated
concretely. -/
theorem ocrExtraction_shape_order_witness :
    ("texte" ≠ "" ∧
      mistralExtractTextFromFile
        (.obj (some (.str "texte")) (some [.str "page-un"]) "zz") = .ok "texte") ∧
    ("raw-json" ≠ "" ∧
      mistralExtractTextFromFile (.obj none none "raw-json") = .ok "raw-json") :=
  ⟨⟨by decide, ocrExtraction_shape_order.2.1 "texte" (some [.str "page-un"]) "zz" (by decide)⟩,
   ⟨by decide, ocrExtraction_shape_order.2.2.2.2.1 "raw-json" (by decide)⟩⟩

lemma mistralUploadLoop_first_error (remote : FileIn → Except String String)
    (pre : List FileIn) (f : FileIn) (rest : List FileIn) (e : String)
    (hpre : ∀ g, g ∈ pre → ∃ id, mistralUploadStep remote g = .ok id)
    (hf : mistralUploadStep remote f = .error e) :
    mistralUploadLoop remote (pre ++ f :: rest)
      = .error ("Erreur upload " ++ f.originalname ++ ": " ++ e) := by
  induction pre with
  | nil =>
    show mistralUploadLoop remote (f :: rest) = _
    unfold mistralUploadLoop
    rw [hf]
  | cons g pre ih =>
    obtain ⟨id, hid⟩ := hpre g (by simp)
    have ihe := ih (fun x hx => hpre x (by simp [hx]))
    show mistralUploadLoop remote (g :: (pre ++ f :: rest)) = _
    unfold mistralUploadLoop
    rw [hid, ihe]

lemma chatgptUploadLoop_first_error (remote : FileIn → Except String String)
    (pre : List FileIn) (f : FileIn) (rest : List FileIn) (e : String)
    (hpre : ∀ g, g ∈ pre → ∃ id, remote g = .ok id)
    (hf : remote f = .error e) :
    chatgptUploadLoop remote (pre ++ f :: rest) = .error e := by
  induction pre with
  | nil =>
    show chatgptUploadLoop remote (f :: rest) = _
    unfold chatgptUploadLoop
    rw [hf]
  | cons g pre ih =>
    obtain ⟨id, hid⟩ := hpre g (by simp)
    have ihe := ih (fun x hx => hpre x (by simp [hx]))
    show chatgptUploadLoop remote (g :: (pre ++ f :: rest)) = _
    unfold chatgptUploadLoop
    rw [hid, ihe]

/-- C7 counterexample: the ChatGPT DirectChat variant performs no per-file
validation, so a zero-length file with an extension outside every accepted
set is uploaded successfully instead of failing with EmptyFile or
UnsupportedFormat. -/
theorem chatgptUpload_no_validation_counterexample :
    (FileIn.bufferLen ⟨"notes.txt", 0, 0⟩ = 0 ∧
      isSupportedFormat "notes.txt" "" = false) ∧
    chatgptUploadFiles [⟨"notes.txt", 0, 0⟩] (fun _ => .ok "file-abc")
      = .ok [⟨"notes.txt", 0, "file-abc"⟩] :=
  ⟨⟨rfl, by decide⟩, rfl⟩

/-- C7 amended: the Mistral OCR-upload variant rejects an empty batch, a
zero-length file and an unsupported extension with the corresponding typed
errors and surfaces the first mid-batch failure without skipping; the
ChatGPT DirectChat variant rejects only the empty batch, performs no
per-file validation, and also aborts on the first remote failure. -/
theorem uploadFiles_validation :
    (∀ remote, mistralUploadFiles [] remote = .error "Aucun fichier fourni") ∧
    (∀ (f : FileIn) remote, f.bufferLen = 0 →
      mistralUploadFiles [f] remote = .error "Fichier vide") ∧
    (∀ (f : FileIn) remote, f.bufferLen ≠ 0 →
      isSupportedFormat f.originalname "" = false →
      mistralUploadFiles [f] remote
        = .error ("Format non supporté: " ++ f.originalname ++
            ". Formats acceptés: PDF, DOCX, PNG, JPG, JPEG, WEBP")) ∧
    (∀ remote (p : FileIn) (pre : List FileIn) (f : FileIn) (rest : List FileIn) (e : String),
      (∀ g, g ∈ p :: pre → ∃ id, mistralUploadStep remote g = .ok id) →
      mistralUploadStep remote f = .error e →
      mistralUploadFiles ((p :: pre) ++ f :: rest) remote
        = .error ("Erreur upload " ++ f.originalname ++ ": " ++ e)) ∧
    (∀ remote, chatgptUploadFiles [] remote = .error "Aucun fichier à uploader") ∧
    (∀ (f : FileIn) remote (id : String), remote f = .ok id →
      chatgptUploadFiles [f] remote = .ok [⟨f.originalname, f.size, id⟩]) ∧
    (∀ remote (pre : List FileIn) (f : FileIn) (rest : List FileIn) (e : String),
      (∀ g, g ∈ pre → ∃ id, remote g = .ok id) →
      remote f = .error e →
      chatgptUploadFiles (pre ++ f :: rest) remote = .error e) := by
  refine ⟨?_, ?_, ?_, ?_, ?_, ?_, ?_⟩
  · intro remote
    rfl
  · intro f remote h
    have hval : validateFile f.bufferLen f.originalname = .error "Fichier vide" := by
      unfold validateFile
      rw [if_pos h]
    show mistralUploadFiles (f :: []) remote = _
    unfold mistralUploadFiles
    dsimp only
    rw [hval]
  · intro f remote h0 hfmt
    have hval : validateFile f.bufferLen f.originalname
        = .error ("Format non supporté: " ++ f.originalname ++
            ". Formats acceptés: PDF, DOCX, PNG, JPG, JPEG, WEBP") := by
      unfold validateFile
      rw [if_neg h0, if_pos (by simp [hfmt])]
    show mistralUploadFiles (f :: []) remote = _
    unfold mistralUploadFiles
    dsimp only
    rw [hval]
  · intro remote p pre f rest e hpre hf
    have hp := hpre p (by simp)
    obtain ⟨id, hid⟩ := hp
    have hval : validateFile p.bufferLen p.originalname = .ok () := by
      unfold mistralUploadStep at hid
      cases hv : validateFile p.bufferLen p.originalname with
      | error e2 => rw [hv] at hid; exact absurd hid (by simp)
      | ok u => cases u; rfl
    show mistralUploadFiles (p :: (pre ++ f :: rest)) remote = _
    unfold mistralUploadFiles
    dsimp only
    rw [hval]
    exact mistralUploadLoop_first_error remote (p :: pre) f rest e hpre hf
  · intro remote
    rfl
  · intro f remote id h
    show chatgptUploadFiles (f :: []) remote = _
    unfold chatgptUploadFiles chatgptUploadLoop
    rw [h]
    rfl
  · intro remote pre f rest e hpre hf
    cases pre with
    | nil =>
      show chatgptUploadFiles (f :: rest) remote = _
      unfold chatgptUploadFiles
      exact chatgptUploadLoop_first_error remote [] f rest e (by simp) hf
    | cons p pre =>
      show chatgptUploadFiles (p :: (pre ++ f :: rest)) remote = _
      unfold chatgptUploadFiles
      exact chatgptUploadLoop_first_error remote (p :: pre) f rest e hpre hf

/-- C7 amended witness: a zero-length first file is rejected with the
EmptyFile error; a mid-batch unsupported file surfaces the wrapped first
error; a remote failure in the ChatGPT variant propagates unchanged. -/
theorem uploadFiles_validation_witness :
    (FileIn.bufferLen ⟨"doc.pdf", 0, 0⟩ = 0 ∧
      mistralUploadFiles [⟨"doc.pdf", 0, 0⟩] (fun _ => .ok "id-1")
        = .error "Fichier vide") ∧
    ((∀ g, g ∈ [(⟨"a.pdf", 3, 3⟩ : FileIn)] →
        ∃ id, mistralUploadStep (fun f => .ok f.originalname) g = .ok id) ∧
      mistralUploadStep (fun f => .ok f.originalname) ⟨"b.txt", 2, 2⟩
        = .error ("Format non supporté: b.txt. Formats acceptés: PDF, DOCX, PNG, JPG, JPEG, WEBP") ∧
      mistralUploadFiles [⟨"a.pdf", 3, 3⟩, ⟨"b.txt", 2, 2⟩, ⟨"c.pdf", 1, 1⟩]
          (fun f => .ok f.originalname)
        = .error ("Erreur upload b.txt: " ++
            "Format non supporté: b.txt. Formats acceptés: PDF, DOCX, PNG, JPG, JPEG, WEBP")) ∧
    ((fun (_ : FileIn) => (.error "remote down" : Except String String)) ⟨"x.pdf", 1, 1⟩
        = .error "remote down" ∧
      chatgptUploadFiles [⟨"x.pdf", 1, 1⟩] (fun _ => .error "remote down")
        = .error "remote down") := by
  refine ⟨⟨rfl, uploadFiles_validation.2.1 _ _ rfl⟩, ⟨?_, rfl, ?_⟩, ⟨rfl, ?_⟩⟩
  · intro g hg
    simp only [List.mem_singleton] at hg
    subst hg
    exact ⟨"a.pdf", rfl⟩
  · exact uploadFiles_validation.2.2.2.1 (fun f => .ok f.originalname)
      ⟨"a.pdf", 3, 3⟩ [] ⟨"b.txt", 2, 2⟩ [(⟨"c.pdf", 1, 1⟩ : FileIn)] _
      (by intro g hg
          simp only [List.mem_singleton] at hg
          subst hg
          exact ⟨"a.pdf", rfl⟩)
      rfl
  · exact uploadFiles_validation.2.2.2.2.2.2 (fun _ => .error "remote down")
      [] ⟨"x.pdf", 1, 1⟩ [] "remote down" (by simp) rfl

/-- C8: in the OCR-upload variant, with files attached and a trailing user
message, the document context is appended to that trailing message, and
each successfully extracted text contributes its entry: text of more than
5000 characters is cut to exactly its first 5000 characters followed by
the truncation marker, text of at most 5000 characters is spliced
unchanged. -/
theorem mistralSplice_truncation :
    (∀ (msgs : List StdMsg) (fids : List String)
        (extractOutcome : String → Except String String) (last : StdMsg),
      fids ≠ [] → msgs.getLast? = some last → last.role = "user" →
      mistralSpliceFiles msgs fids extractOutcome
        = msgs.dropLast ++
            [⟨"user", last.content ++ documentContext extractOutcome fids⟩]) ∧
    (∀ (extractOutcome : String → Except String String) (fid t : String),
      extractOutcome fid = .ok t → t.length ≤ 5000 →
      fileContextEntry extractOutcome fid
        = "\n[Fichier: " ++ fid ++ "]\n" ++ t ++ "\n") ∧
    (∀ (extractOutcome : String → Except String String) (fid t : String),
      extractOutcome fid = .ok t → t.length > 5000 →
      fileContextEntry extractOutcome fid
          = "\n[Fichier: " ++ fid ++ "]\n"
            ++ (sliceChars t 5000 ++ "\n[... contenu tronqué ...]") ++ "\n" ∧
        (sliceChars t 5000).length = 5000 ∧
        (sliceChars t 5000).data <+: t.data) := by
  refine ⟨?_, ?_, ?_⟩
  · intro msgs fids extractOutcome last hf hlast hrole
    have hlen : fids.length > 0 := List.length_pos.mpr hf
    simp only [mistralSpliceFiles, if_pos hlen, hlast, hrole, if_pos rfl, if_true]
  · intro extractOutcome fid t hok hle
    unfold fileContextEntry truncateExtractedText
    rw [hok]
    dsimp only
    rw [if_neg (by omega)]
  · intro extractOutcome fid t hok hgt
    refine ⟨?_, ?_, List.take_prefix 5000 t.data⟩
    · unfold fileContextEntry truncateExtractedText
      rw [hok]
      dsimp only
      rw [if_pos hgt]
    · show (List.take 5000 t.data).length = 5000
      have ht : t.data.length > 5000 := hgt
      rw [List.length_take]
      omega

/-- C8 witness: one user message with one attached file, instantiated both
with a short extracted text spliced unchanged and with a 5001-character
text cut at 5000 characters before the marker. -/
theorem mistralSplice_truncation_witness :
    ((["f1"] : List String) ≠ [] ∧
      ([⟨"user", "hi"⟩] : List StdMsg).getLast? = some ⟨"user", "hi"⟩ ∧
      (StdMsg.role ⟨"user", "hi"⟩) = "user" ∧
      mistralSpliceFiles [⟨"user", "hi"⟩] ["f1"] (fun _ => .ok "abc")
        = [⟨"user", "hi" ++ documentContext (fun _ => .ok "abc") ["f1"]⟩]) ∧
    ((fun (_ : String) => (.ok "abc" : Except String String)) "f1" = .ok "abc" ∧
      ("abc" : String).length ≤ 5000 ∧
      fileContextEntry (fun _ => .ok "abc") "f1"
        = "\n[Fichier: " ++ "f1" ++ "]\n" ++ "abc" ++ "\n") ∧
    ((fun (_ : String) => (.ok (String.mk (List.replicate 5001 'a')) : Except String String)) "f2"
        = .ok (String.mk (List.replicate 5001 'a')) ∧
      (String.mk (List.replicate 5001 'a')).length > 5000 ∧
      fileContextEntry (fun _ => .ok (String.mk (List.replicate 5001 'a'))) "f2"
          = "\n[Fichier: " ++ "f2" ++ "]\n"
            ++ (sliceChars (String.mk (List.replicate 5001 'a')) 5000
              ++ "\n[... contenu tronqué ...]") ++ "\n" ∧
      (sliceChars (String.mk (List.replicate 5001 'a')) 5000).length = 5000) := by
  have hlong : (String.mk (List.replicate 5001 'a')).length > 5000 := by
    show (List.replicate 5001 'a').length > 5000
    rw [List.length_replicate]
    omega
  have hshort : ("abc" : String).length ≤ 5000 := by decide
  have h3 := mistralSplice_truncation.2.2
    (fun _ => .ok (String.mk (List.replicate 5001 'a'))) "f2"
    (String.mk (List.replicate 5001 'a')) rfl hlong
  refine ⟨⟨by simp, rfl, rfl, ?_⟩,
    ⟨rfl, hshort,
      mistralSplice_truncation.2.1 (fun _ => .ok "abc") "f1" "abc" rfl hshort⟩,
    ⟨rfl, hlong, h3.1, h3.2.1⟩⟩
  exact mistralSplice_truncation.1 [⟨"user", "hi"⟩] ["f1"] (fun _ => .ok "abc")
    ⟨"user", "hi"⟩ (by simp) rfl rfl

lemma getTotalCost_addRequest (u : UserRecord) :
    getTotalCost (addRequest u) = getTotalCost u := rfl

lemma getTotalCost_addRequestWithFiles (u : UserRecord) :
    getTotalCost (addRequestWithFiles u) = getTotalCost u := rfl

lemma getCostLimit_addRequest (u : UserRecord) :
    getCostLimit (addRequest u) = getCostLimit u := rfl

lemma getCostLimit_addRequestWithFiles (u : UserRecord) :
    getCostLimit (addRequestWithFiles u) = getCostLimit u := rfl

/-- C1: when the ensured user record already accumulated at least its
effective cost ceiling, processChatRequest returns the empty limit-reached
response with usage null and cost 0, and neither the adapter nor the token
or cost bookkeeping is invoked. -/
theorem processChatRequest_limitReached
    (adapter : ProcessedChatRequest → Except String StandardizedResponse)
    (serviceCostLimit : ℚ) (store : Option UserRecord)
    (raw : RawRequest) (model : String)
    (h : getCostLimit (ensureUserExists store) ≤ getTotalCost (ensureUserExists store)) :
    (processChatRequest adapter serviceCostLimit store raw model).1
      = .ok ⟨"", none, 0, true⟩ ∧
    (processChatRequest adapter serviceCostLimit store raw model).2.1.adapterCalls = [] ∧
    (processChatRequest adapter serviceCostLimit store raw model).2.1.addTokensCalls = [] ∧
    (processChatRequest adapter serviceCostLimit store raw model).2.1.addCostCalls = [] := by
  unfold processChatRequest jsIsFinite
  dsimp only
  simp only [eq_self_iff_true, if_true, apply_ite getTotalCost, apply_ite getCostLimit,
    getTotalCost_addRequest, getTotalCost_addRequestWithFiles,
    getCostLimit_addRequest, getCostLimit_addRequestWithFiles, ite_self]
  rw [if_pos h]
  exact ⟨rfl, rfl, rfl, rfl⟩

/-- C1 witness: a user with accumulated cost 5 and ceiling 2 gets the
limit-reached response with no adapter call. -/
theorem processChatRequest_limitReached_witness :
    (getCostLimit (ensureUserExists (some ⟨none, none, none, some 5, some 2⟩))
        ≤ getTotalCost (ensureUserExists (some ⟨none, none, none, some 5, some 2⟩))) ∧
    ((processChatRequest (fun _ => .error "boom") 2
        (some ⟨none, none, none, some 5, some 2⟩)
        ⟨some "hello", none, none⟩ "mistral-small").1 = .ok ⟨"", none, 0, true⟩ ∧
      (processChatRequest (fun _ => .error "boom") 2
        (some ⟨none, none, none, some 5, some 2⟩)
        ⟨some "hello", none, none⟩ "mistral-small").2.1.adapterCalls = [] ∧
      (processChatRequest (fun _ => .error "boom") 2
        (some ⟨none, none, none, some 5, some 2⟩)
        ⟨some "hello", none, none⟩ "mistral-small").2.1.addTokensCalls = [] ∧
      (processChatRequest (fun _ => .error "boom") 2
        (some ⟨none, none, none, some 5, some 2⟩)
        ⟨some "hello", none, none⟩ "mistral-small").2.1.addCostCalls = []) :=
  ⟨by norm_num [ensureUserExists, getCostLimit, getTotalCost],
   processChatRequest_limitReached _ _ _ _ _
     (by norm_num [ensureUserExists, getCostLimit, getTotalCost])⟩

/-- C9: when the limit is not reached, normalization succeeds and the
adapter fails, processChatRequest rejects with the very same error, makes
exactly one adapter call (no retry), and performs no addTokens and no
addCost bookkeeping. -/
theorem processChatRequest_adapterError
    (adapter : ProcessedChatRequest → Except String StandardizedResponse)
    (serviceCostLimit : ℚ) (store : Option UserRecord)
    (raw : RawRequest) (model : String) (pr : ProcessedChatRequest) (e : String)
    (hlim : ¬ (getCostLimit (ensureUserExists store) ≤ getTotalCost (ensureUserExists store)))
    (hnorm : normalizeRequest raw model = .ok pr)
    (hadapter : adapter pr = .error e) :
    (processChatRequest adapter serviceCostLimit store raw model).1 = .error e ∧
    (processChatRequest adapter serviceCostLimit store raw model).2.1.adapterCalls = [pr] ∧
    (processChatRequest adapter serviceCostLimit store raw model).2.1.addTokensCalls = [] ∧
    (processChatRequest adapter serviceCostLimit store raw model).2.1.addCostCalls = [] := by
  unfold processChatRequest jsIsFinite
  dsimp only
  simp only [eq_self_iff_true, if_true, apply_ite getTotalCost, apply_ite getCostLimit,
    getTotalCost_addRequest, getTotalCost_addRequestWithFiles,
    getCostLimit_addRequest, getCostLimit_addRequestWithFiles, ite_self]
  rw [if_neg hlim, hnorm]
  dsimp only
  rw [hadapter]
  exact ⟨rfl, rfl, rfl, rfl⟩

/-- C9 witness: a fresh user under the limit, a legacy prompt request, and
an adapter stub failing with the rate-limit message: the service rejects
with the same message, after one adapter call and no bookkeeping. -/
theorem processChatRequest_adapterError_witness :
    (¬ (getCostLimit (ensureUserExists (some ⟨none, none, none, some 0, some 2⟩))
        ≤ getTotalCost (ensureUserExists (some ⟨none, none, none, some 0, some 2⟩))) ∧
      normalizeRequest ⟨some "hello", none, none⟩ "mistral-small"
        = .ok ⟨[⟨"user", "hello"⟩], [], "mistral-small"⟩ ∧
      (fun (_ : ProcessedChatRequest) =>
          (.error "Limite de taux API Mistral atteinte. Veuillez réessayer plus tard."
            : Except String StandardizedResponse))
        ⟨[⟨"user", "hello"⟩], [], "mistral-small"⟩
        = .error "Limite de taux API Mistral atteinte. Veuillez réessayer plus tard.") ∧
    ((processChatRequest
        (fun _ => .error "Limite de taux API Mistral atteinte. Veuillez réessayer plus tard.")
        2 (some ⟨none, none, none, some 0, some 2⟩)
        ⟨some "hello", none, none⟩ "mistral-small").1
        = .error "Limite de taux API Mistral atteinte. Veuillez réessayer plus tard." ∧
      (processChatRequest
        (fun _ => .error "Limite de taux API Mistral atteinte. Veuillez réessayer plus tard.")
        2 (some ⟨none, none, none, some 0, some 2⟩)
        ⟨some "hello", none, none⟩ "mistral-small").2.1.adapterCalls
        = [⟨[⟨"user", "hello"⟩], [], "mistral-small"⟩] ∧
      (processChatRequest
        (fun _ => .error "Limite de taux API Mistral atteinte. Veuillez réessayer plus tard.")
        2 (some ⟨none, none, none, some 0, some 2⟩)
        ⟨some "hello", none, none⟩ "mistral-small").2.1.addTokensCalls = [] ∧
      (processChatRequest
        (fun _ => .error "Limite de taux API Mistral atteinte. Veuillez réessayer plus tard.")
        2 (some ⟨none, none, none, some 0, some 2⟩)
        ⟨some "hello", none, none⟩ "mistral-small").2.1.addCostCalls = []) :=
  ⟨⟨by norm_num [ensureUserExists, getCostLimit, getTotalCost], rfl, rfl⟩,
   processChatRequest_adapterError _ _ _ _ _ _ _
     (by norm_num [ensureUserExists, getCostLimit, getTotalCost]) rfl rfl⟩

/-- C10: on every run of processChatRequest, whatever the outcome, the
final user record carries totalRequests incremented by one, and
totalRequestsWithFiles incremented by one exactly when the raw request
carries file references; the trace records exactly one addRequest call and
one addRequestWithFiles call in the with-files case.  The increments
happen before the cost-limit check and before input validation and are
never rolled back, so they persist for limit-refused requests, for
MissingInput failures and for adapter errors alike. -/
theorem processChatRequest_counters_incremented
    (adapter : ProcessedChatRequest → Except String StandardizedResponse)
    (serviceCostLimit : ℚ) (store : Option UserRecord)
    (raw : RawRequest) (model : String) :
    (processChatRequest adapter serviceCostLimit store raw model).2.2.totalRequests
      = some ((ensureUserExists store).totalRequests.getD 0 + 1) ∧
    (processChatRequest adapter serviceCostLimit store raw model).2.2.totalRequestsWithFiles
      = (if hasFiles raw
        then some ((ensureUserExists store).totalRequestsWithFiles.getD 0 + 1)
        else (ensureUserExists store).totalRequestsWithFiles) ∧
    (processChatRequest adapter serviceCostLimit store raw model).2.1.addRequestCalls = 1 ∧
    (processChatRequest adapter serviceCostLimit store raw model).2.1.addRequestWithFilesCalls
      = (if hasFiles raw then 1 else 0) := by
  unfold processChatRequest jsIsFinite
  dsimp only
  cases hf : hasFiles raw <;> split_ifs <;>
    try exact ⟨rfl, rfl, rfl, rfl⟩
  all_goals
    cases hn : normalizeRequest raw model with
    | error e => exact ⟨rfl, rfl, rfl, rfl⟩
    | ok pr =>
      dsimp only
      cases ha : adapter pr with
      | error e2 => exact ⟨rfl, rfl, rfl, rfl⟩
      | ok resp =>
        dsimp only
        by_cases ht : resp.tokensUsed = 0
        · simp only [if_pos ht]
          refine ⟨rfl, ?_, ?_, ?_⟩ <;> trivial
        · simp only [if_neg ht]
          refine ⟨rfl, ?_, ?_, ?_⟩ <;> trivial
